import Mathlib

/-!
Verification of the natural-language specification of the pyintelowl
classic command-line client (`intel_owl_client.py`) against a shallow
embedding of its code.

The program is a linear pipeline: CLI validation, input preparation
(file bytes or lower-cased observable, fingerprinted by an MD5 digest),
up to three remote API operations (availability check, submission,
result polling with a hard cap of 1200 one-second tries), and a final
presentation step.  The remote API is modelled as an oracle of response
envelopes; the run is a pure function from arguments, filesystem and
oracle to a trace of API calls plus a final outcome.
-/

namespace PyIntelOwl

/-- Answer map carried inside an API response envelope.  Absent keys are
modelled by the default field values, matching the `dict.get` defaults
used in the source (`status` and `job_id` default to `None`, `results`
to `[]`). -/
structure Answer where
  status : Option String := none
  job_id : Option String := none
  analyzers_running : List String := []
  warnings : List String := []
  results : List String := []
  elapsed_time_in_seconds : Option Nat := none
  deriving DecidableEq

/-- Result envelope of the analysis API operations: an `errors` list and
an `answer` map, read via `api_request_result.get("errors", [])` and
`api_request_result.get("answer", {})` in the source. -/
structure Envelope where
  errors : List String := []
  answer : Answer := {}
  deriving DecidableEq

/-- Envelope returned by `get_analyzer_configs`.  The analyzer
configuration is an opaque mapping, modelled as a `String`. -/
structure ConfigEnvelope where
  errors : List String := []
  answer : String := ""
  deriving DecidableEq

/-- Modelled from the spec: the four request operations of the external
`IntelOwl` API client (`pyintelowl.pyintelowl`, not part of the source
file), each returning a result envelope with an `errors` list and an
`answer` map.  The polling answers are indexed by iteration number. -/
structure Api where
  get_analyzer_configs : ConfigEnvelope
  ask_analysis_availability : Envelope
  send_analysis_request : Envelope
  ask_analysis_result : Nat → Envelope

/-- Trace entry recording one API call together with its arguments. -/
inductive ApiCall where
  | getAnalyzerConfigs : ApiCall
  | askAnalysisAvailability (md5 : String) (analyzers : List String)
      (runAll : Bool) (checkReported : Bool) : ApiCall
  | sendFileAnalysisRequest (md5 : String) (analyzers : List String)
      (filename : String) (binary : List Nat)
      (forcePrivacy privateJob disableExternal runAll : Bool) : ApiCall
  | sendObservableAnalysisRequest (md5 : String) (analyzers : List String)
      (value : List Nat)
      (forcePrivacy privateJob disableExternal runAll : Bool) : ApiCall
  | askAnalysisResult (jobId : String) : ApiCall
  deriving DecidableEq

/-- The `IntelOwlClientException` values raised inside the `try` block,
one constructor per `raise` site of `_pyintelowl_logic`. -/
inductive ClientErr where
  | fileNotExists (path : String)
  | mustSpecifyType
  | availabilityErrors (errors : List String)
  | availabilityNoStatus
  | availabilityNoJobId
  | sendErrors (errors : List String)
  | sendNoStatus
  | sendUnexpectedStatus (status : String)
  | sendNoJobId
  | resultErrors (errors : List String)
  | resultNoStatus (jobId : String)
  | resultBadStatus (status : String)
  | pollingTimeout (jobId : String)
  deriving DecidableEq

/-- Subcommand of the CLI: `file -f <path>` or `observable -v <value>`.
Observable values are modelled as lists of Unicode code points. -/
inductive Cmd where
  | file (path : String)
  | observable (value : List Nat)
  deriving DecidableEq

/-- Parsed command-line arguments (`argparse` result).  An absent
`--analyzers-list` is modelled by the empty list, matching Python
truthiness of the `append`-action default `None`. -/
structure Args where
  show_colors : Bool := false
  api_key : Option String := none
  certificate : Option String := none
  instance_url : String := ""
  debug : Bool := false
  log_to_file : Option String := none
  get_configuration : Bool := false
  analyzers_list : List String := []
  run_all_available_analyzers : Bool := false
  force_privacy : Bool := false
  private_job : Bool := false
  disable_external_analyzers : Bool := false
  check_reported_analysis_too : Bool := false
  skip_check_analysis_availability : Bool := false
  command : Option Cmd := none
  deriving DecidableEq

/-- Analysis mode after input preparation: file name and bytes, or the
(already lower-cased) observable value. -/
inductive Mode where
  | fileM (filename : String) (binary : List Nat)
  | obsM (value : List Nat)
  deriving DecidableEq

/-- Final visible behaviour of `_pyintelowl_logic`: configuration print
followed by `exit(0)`; raw `pprint` of the results; colorized rendering
of the results for an observable value; or an unhandled `AttributeError`
raised by reading `args.value` in the presentation step when the `file`
subcommand (which never defines `value`) was used. -/
inductive Outcome where
  | configPrinted (cfg : String)
  | printedResults (results : List String)
  | colorized (value : List Nat) (results : List String)
  | attributeError
  deriving DecidableEq

/-- Result of one full `_pyintelowl_logic` run: the API calls made, the
computed fingerprint, the captured results and elapsed time, the errors
logged (without raising) in configuration-only mode, the caught client
exception if any, and the final outcome. -/
structure RunResult where
  trace : List ApiCall
  md5 : Option String
  results : List String
  elapsed : Option Nat
  gcErrors : List String
  loggedError : Option ClientErr
  outcome : Outcome
  deriving DecidableEq

/-- Intermediate result of the analysis part of the run (availability
check, submission, polling): calls made, results, elapsed time and the
exception raised, if any. -/
structure FlowOut where
  calls : List ApiCall
  results : List String
  elapsed : Option Nat
  err : Option ClientErr
  deriving DecidableEq

/-- Result of `intel_owl_client`: either an early `exit` during CLI
validation (before the logger is created and before any network call),
or a full run. -/
inductive ClientRun where
  | earlyExit (code : Nat)
  | ran (r : RunResult)
  deriving DecidableEq

/-- ASCII model of Python `str.lower` on a single code point: upper-case
ASCII letters are shifted by 32, all other code points are unchanged. -/
def lowerCode (n : Nat) : Nat :=
  if 65 ≤ n ∧ n ≤ 90 then n + 32 else n

/-- Model of `args.value.lower()`: code-point-wise lower-casing. -/
def lowerStr (s : List Nat) : List Nat :=
  s.map lowerCode

/-- UTF-8 encoding of a single code point (`str.encode("utf-8")`). -/
def utf8EncodeChar (n : Nat) : List Nat :=
  if n < 128 then [n]
  else if n < 2048 then [192 + n / 64, 128 + n % 64]
  else if n < 65536 then [224 + n / 4096, 128 + n / 64 % 64, 128 + n % 64]
  else [240 + n / 262144, 128 + n / 4096 % 64, 128 + n / 64 % 64, 128 + n % 64]

/-- UTF-8 encoding of a code-point string. -/
def utf8Encode : List Nat → List Nat
  | [] => []
  | c :: cs => utf8EncodeChar c ++ utf8Encode cs

/-- Model of `os.path.basename`: the part after the last slash. -/
def basename (p : String) : String :=
  (p.splitOn "/").getLastD ""

/-- Fixed polling cap of the source: `polling_max_tries = 60 * 20`. -/
def polling_max_tries : Nat := 60 * 20

/-- Fixed polling interval of the source in seconds:
`polling_interval = 1`. -/
def polling_interval : Nat := 1

/-- First analysis step (source lines 164-202): handling of the
`ask_analysis_availability` envelope.  Returns `some jobId` when a prior
analysis is available, `none` when the status is `"not_available"`;
every other shape raises. -/
def availabilityStep (api : Api) : Except ClientErr (Option String) :=
  let env := api.ask_analysis_availability
  match env.errors with
  | e :: es => Except.error (ClientErr.availabilityErrors (e :: es))
  | [] =>
    match env.answer.status with
    | none => Except.error ClientErr.availabilityNoStatus
    | some s =>
      if s = "" then Except.error ClientErr.availabilityNoStatus
      else if s ≠ "not_available" then
        match env.answer.job_id with
        | none => Except.error ClientErr.availabilityNoJobId
        | some j =>
          if j = "" then Except.error ClientErr.availabilityNoJobId
          else Except.ok (some j)
      else Except.ok none

/-- Second analysis step (source lines 233-262): handling of the
submission envelope, shared by the file and the observable case.
Requires an `"accepted"` status and a truthy `job_id`. -/
def submissionStep (api : Api) : Except ClientErr String :=
  let env := api.send_analysis_request
  match env.errors with
  | e :: es => Except.error (ClientErr.sendErrors (e :: es))
  | [] =>
    match env.answer.status with
    | none => Except.error ClientErr.sendNoStatus
    | some s =>
      if s = "" then Except.error ClientErr.sendNoStatus
      else if s ≠ "accepted" then Except.error (ClientErr.sendUnexpectedStatus s)
      else
        match env.answer.job_id with
        | none => Except.error ClientErr.sendNoJobId
        | some j =>
          if j = "" then Except.error ClientErr.sendNoJobId
          else Except.ok j

/-- Decision taken by one polling iteration: stop with a value (raised
exception, or captured results and elapsed time on a terminal status),
or keep polling. -/
inductive StepRes where
  | stop (r : Except ClientErr (List String × Option Nat))
  | go

/-- Body of one polling iteration (source lines 270-303): raise on a
non-empty `errors` list, on a missing status and on the statuses
`"invalid_id"` and `"not_available"`; capture results and elapsed time
on a terminal status; keep polling otherwise (`"running"`, `"pending"`
and any unrecognised status all fall through to the next iteration). -/
def pollStep (jobId : String) (env : Envelope) : StepRes :=
  match env.errors with
  | e :: es => StepRes.stop (Except.error (ClientErr.resultErrors (e :: es)))
  | [] =>
    match env.answer.status with
    | none => StepRes.stop (Except.error (ClientErr.resultNoStatus jobId))
    | some s =>
      if s = "" then StepRes.stop (Except.error (ClientErr.resultNoStatus jobId))
      else if s = "invalid_id" ∨ s = "not_available" then
        StepRes.stop (Except.error (ClientErr.resultBadStatus s))
      else if s = "reported_without_fails" ∨ s = "reported_with_fails" ∨ s = "failed" then
        StepRes.stop (Except.ok (env.answer.results, env.answer.elapsed_time_in_seconds))
      else StepRes.go

/-- The polling loop (`for chance in range(polling_max_tries)`), with the
iteration number `i` selecting the oracle answer and `fuel` the number of
iterations left.  Returns the poll calls made and either the raised
exception or the `(results, elapsed_time)` captured at the `break`; an
exhausted loop returns `([], none)` for them, matching the untouched
initial values of the Python variables. -/
def pollLoop (api : Api) (jobId : String) (i fuel : Nat) :
    List ApiCall × Except ClientErr (List String × Option Nat) :=
  match fuel with
  | 0 => ([], Except.ok ([], none))
  | Nat.succ n =>
    match pollStep jobId (api.ask_analysis_result i) with
    | StepRes.stop r => ([ApiCall.askAnalysisResult jobId], r)
    | StepRes.go =>
      let p := pollLoop api jobId (i + 1) n
      (ApiCall.askAnalysisResult jobId :: p.1, p.2)

/-- Trace entry of the availability call with its actual arguments. -/
def availCall (md5 : String) (args : Args) : ApiCall :=
  ApiCall.askAnalysisAvailability md5 args.analyzers_list
    args.run_all_available_analyzers args.check_reported_analysis_too

/-- Trace entry of the submission call: `send_file_analysis_request` in
file mode, `send_observable_analysis_request` in observable mode. -/
def sendCall (args : Args) (mode : Mode) (md5 : String) : ApiCall :=
  match mode with
  | Mode.fileM filename binary =>
    ApiCall.sendFileAnalysisRequest md5 args.analyzers_list filename binary
      args.force_privacy args.private_job args.disable_external_analyzers
      args.run_all_available_analyzers
  | Mode.obsM value =>
    ApiCall.sendObservableAnalysisRequest md5 args.analyzers_list value
      args.force_privacy args.private_job args.disable_external_analyzers
      args.run_all_available_analyzers

/-- Third analysis step: run the polling loop on the acquired job id and
raise the polling-timeout exception when the captured results are empty
(source lines 264-308).  Note that the same exception is raised both
when the loop exhausts its cap and when a terminal answer carried no
results. -/
def flowPolling (api : Api) (calls0 : List ApiCall) (jobId : String) : FlowOut :=
  let p := pollLoop api jobId 0 polling_max_tries
  match p.2 with
  | Except.error e => ⟨calls0 ++ p.1, [], none, some e⟩
  | Except.ok (results, elapsed) =>
    match results with
    | [] => ⟨calls0 ++ p.1, [], elapsed, some (ClientErr.pollingTimeout jobId)⟩
    | r :: rs => ⟨calls0 ++ p.1, r :: rs, elapsed, none⟩

/-- Continuation of the analysis after the availability step: reuse the
available job id, or submit a new analysis and require acceptance. -/
def flowAfterAvail (api : Api) (args : Args) (mode : Mode) (md5 : String)
    (calls0 : List ApiCall) (availJob : Option String) : FlowOut :=
  match availJob with
  | some j => flowPolling api calls0 j
  | none =>
    match submissionStep api with
    | Except.error e => ⟨calls0 ++ [sendCall args mode md5], [], none, some e⟩
    | Except.ok j => flowPolling api (calls0 ++ [sendCall args mode md5]) j

/-- The analysis part of the run: availability check (unless skipped),
submission (unless available) and polling. -/
def analysisFlow (api : Api) (args : Args) (mode : Mode) (md5 : String) : FlowOut :=
  if args.skip_check_analysis_availability then
    flowAfterAvail api args mode md5 [] none
  else
    match availabilityStep api with
    | Except.error e => ⟨[availCall md5 args], [], none, some e⟩
    | Except.ok availJob =>
      flowAfterAvail api args mode md5 [availCall md5 args] availJob

/-- Final part of `_pyintelowl_logic` (source lines 317-331), reached on
every path except the configuration-only `exit(0)`: log elapsed time and
results, then either `pprint` the raw results or, with `--show-colors`,
read `args.value` — which is only defined by the observable subparser,
so any other command raises an unhandled `AttributeError` here. -/
def finalStep (args : Args) (value : Option (List Nat)) (md5 : Option String)
    (results : List String) (elapsed : Option Nat) (calls : List ApiCall)
    (err : Option ClientErr) : RunResult :=
  { trace := calls
    md5 := md5
    results := results
    elapsed := elapsed
    gcErrors := []
    loggedError := err
    outcome :=
      if args.show_colors then
        match value with
        | none => Outcome.attributeError
        | some v => Outcome.colorized v results
      else Outcome.printedResults results }

/-- The body of `_pyintelowl_logic`: input preparation and fingerprint
(file bytes, or lower-cased observable encoded as UTF-8, hashed with
`md5hex`, the model of `hashlib.md5(...).hexdigest()`), the
configuration-only mode (errors logged, configuration printed,
`exit(0)`), the analysis flow, the broad exception handling and the
final presentation step. -/
def pyintelowl_logic (md5hex : List Nat → String)
    (fs : String → Option (List Nat)) (api : Api) (args : Args) : RunResult :=
  match args.command with
  | some (Cmd.file path) =>
    match fs path with
    | none =>
      finalStep args none none [] none [] (some (ClientErr.fileNotExists path))
    | some binary =>
      let md5 := md5hex binary
      let flow := analysisFlow api args (Mode.fileM (basename path) binary) md5
      finalStep args none (some md5) flow.results flow.elapsed flow.calls flow.err
  | some (Cmd.observable v) =>
    let value := lowerStr v
    let md5 := md5hex (utf8Encode value)
    let flow := analysisFlow api args (Mode.obsM value) md5
    finalStep args (some value) (some md5) flow.results flow.elapsed flow.calls flow.err
  | none =>
    if args.get_configuration then
      { trace := [ApiCall.getAnalyzerConfigs]
        md5 := none
        results := []
        elapsed := none
        gcErrors := api.get_analyzer_configs.errors
        loggedError := none
        outcome := Outcome.configPrinted api.get_analyzer_configs.answer }
    else
      finalStep args none none [] none [] (some ClientErr.mustSpecifyType)

/-- Process exit status of an outcome: `exit(0)` in configuration mode,
0 after a normal return from `main`, 1 when the interpreter dies on the
unhandled `AttributeError`. -/
def exitCodeOf : Outcome → Nat
  | Outcome.configPrinted _ => 0
  | Outcome.printedResults _ => 0
  | Outcome.colorized _ _ => 0
  | Outcome.attributeError => 1

/-- The entry point `intel_owl_client` (source lines 105-118): CLI
validation with `exit(2)` and `exit(3)`, performed before the logger is
created and before `_pyintelowl_logic` makes any network call; the
`earlyExit` constructor carries no run at all. -/
def intel_owl_client (md5hex : List Nat → String)
    (fs : String → Option (List Nat)) (api : Api) (args : Args) : ClientRun :=
  if args.get_configuration = false ∧ args.analyzers_list = [] ∧
      args.run_all_available_analyzers = false then
    ClientRun.earlyExit 2
  else if args.get_configuration = false ∧ args.analyzers_list ≠ [] ∧
      args.run_all_available_analyzers = true then
    ClientRun.earlyExit 3
  else
    ClientRun.ran (pyintelowl_logic md5hex fs api args)

/-- Predicate selecting polling calls in a trace. -/
def isPollCall : ApiCall → Bool
  | ApiCall.askAnalysisResult _ => true
  | _ => false

/-- Predicate selecting submission calls in a trace. -/
def isSendCall : ApiCall → Bool
  | ApiCall.sendFileAnalysisRequest _ _ _ _ _ _ _ _ => true
  | ApiCall.sendObservableAnalysisRequest _ _ _ _ _ _ _ => true
  | _ => false

/-- Number of polling calls in a trace. -/
def countPoll (calls : List ApiCall) : Nat :=
  calls.countP isPollCall

/-- A polling answer on which the loop keeps going: no errors and a
truthy status that is neither rejected nor terminal. -/
def continuesPoll (env : Envelope) : Prop :=
  env.errors = [] ∧ ∃ s, env.answer.status = some s ∧ s ≠ "" ∧
    s ≠ "invalid_id" ∧ s ≠ "not_available" ∧
    s ≠ "reported_without_fails" ∧ s ≠ "reported_with_fails" ∧ s ≠ "failed"

/-- Concrete stand-in for the MD5 hex digest, used on sample inputs. -/
def mdh0 : List Nat → String := fun bs => toString bs.length

/-- Concrete empty filesystem. -/
def fs0 : String → Option (List Nat) := fun _ => none

/-- Concrete filesystem holding one sample file. -/
def fs1 : String → Option (List Nat) :=
  fun p => if p = "sample.bin" then some [77, 90, 0] else none

/-- Concrete API oracle answering every operation with an empty envelope. -/
def api0 : Api :=
  { get_analyzer_configs := {}
    ask_analysis_availability := {}
    send_analysis_request := {}
    ask_analysis_result := fun _ => {} }

/-- Envelope carrying only a status. -/
def statusEnv (s : String) : Envelope :=
  { answer := { status := some s } }

/-- Envelope of a finished job: terminal status, results, elapsed time. -/
def reportedEnv (results : List String) (elapsed : Option Nat) : Envelope :=
  { answer := { status := some "reported_without_fails", results := results,
                elapsed_time_in_seconds := elapsed } }

/-- Envelope of an accepted submission. -/
def acceptedEnv (jobId : String) : Envelope :=
  { answer := { status := some "accepted", job_id := some jobId } }

/-- Envelope of an available prior analysis. -/
def availableEnv (s jobId : String) : Envelope :=
  { answer := { status := some s, job_id := some jobId } }

/-- Oracle whose configuration fetch carries errors. -/
def apiGcErr : Api :=
  { api0 with get_analyzer_configs := { errors := ["e0"], answer := "cfg" } }

/-- Oracle whose availability check carries errors. -/
def apiAvailErr : Api :=
  { api0 with ask_analysis_availability := { errors := ["e1"] } }

/-- Oracle whose submission carries errors. -/
def apiSendErr : Api :=
  { api0 with ask_analysis_availability := statusEnv "not_available"
              send_analysis_request := { errors := ["e2"] } }

/-- Oracle whose second polling answer carries errors. -/
def apiPollErr : Api :=
  { api0 with send_analysis_request := acceptedEnv "J1"
              ask_analysis_result := fun i =>
                if i = 0 then statusEnv "running" else { errors := ["e3"] } }

/-- Oracle reporting an already available analysis. -/
def apiAvail : Api :=
  { api0 with ask_analysis_availability := availableEnv "already_available" "J2" }

/-- Oracle accepting the submission and answering every poll with a
running status. -/
def apiAccepted : Api :=
  { api0 with send_analysis_request := acceptedEnv "J3"
              ask_analysis_result := fun _ => statusEnv "running" }

/-- Oracle answering the submission with a non-accepted status. -/
def apiNotAccepted : Api :=
  { api0 with ask_analysis_availability := statusEnv "not_available"
              send_analysis_request := statusEnv "queued" }

/-- Oracle producing the poll sequence running, running, pending,
reported_without_fails. -/
def apiSeq : Api :=
  { api0 with send_analysis_request := acceptedEnv "J4"
              ask_analysis_result := fun i =>
                if i = 0 ∨ i = 1 then statusEnv "running"
                else if i = 2 then statusEnv "pending"
                else reportedEnv ["verdict"] (some 7) }

/-- Oracle whose first polling answer is terminal with empty results. -/
def apiTermEmpty : Api :=
  { api0 with send_analysis_request := acceptedEnv "J5"
              ask_analysis_result := fun _ => statusEnv "failed" }

/-- Configuration-only arguments. -/
def argsGc0 : Args := { get_configuration := true }

/-- Observable-mode arguments with one analyzer. -/
def argsObs0 : Args :=
  { analyzers_list := ["a1"], command := some (Cmd.observable [72, 105]) }

/-- Observable-mode arguments skipping the availability check. -/
def argsObsSkip : Args :=
  { argsObs0 with skip_check_analysis_availability := true }

/-- File-mode arguments with one analyzer. -/
def argsFile0 : Args :=
  { analyzers_list := ["a1"], command := some (Cmd.file "sample.bin") }

/-- File-mode arguments with colorized presentation requested. -/
def argsFileColors : Args := { argsFile0 with show_colors := true }

/-- Lower-casing a single code point is idempotent. -/
theorem lowerCode_idem (n : Nat) : lowerCode (lowerCode n) = lowerCode n := by
  by_cases h : 65 ≤ n ∧ n ≤ 90
  · simp only [lowerCode, if_pos h]
    rw [if_neg (by omega)]
  · simp only [lowerCode, if_neg h]

/-- Lower-casing a code-point string is idempotent. -/
theorem lowerStr_idem (s : List Nat) : lowerStr (lowerStr s) = lowerStr s := by
  induction s with
  | nil => rfl
  | cons c cs ih =>
    simp only [lowerStr, List.map_cons, lowerCode_idem] at ih ⊢
    simpa [lowerStr] using ih

/-- A polling answer satisfying `continuesPoll` makes the loop body go on. -/
theorem pollStep_go (j : String) (env : Envelope) (h : continuesPoll env) :
    pollStep j env = StepRes.go := by
  obtain ⟨he, s, hs, h1, h2, h3, h4, h5, h6⟩ := h
  simp [pollStep, he, hs, h1, h2, h3, h4, h5, h6]

/-- A polling answer with a non-empty errors list stops the loop with the
raised exception. -/
theorem pollStep_stop_errors (j : String) (env : Envelope) (e : String)
    (es : List String) (he : env.errors = e :: es) :
    pollStep j env = StepRes.stop (Except.error (ClientErr.resultErrors (e :: es))) := by
  simp [pollStep, he]

/-- A polling answer with a terminal status stops the loop, capturing the
results and elapsed time of the answer. -/
theorem pollStep_stop_terminal (j : String) (env : Envelope) (s : String)
    (he : env.errors = []) (hs : env.answer.status = some s)
    (ht : s = "reported_without_fails" ∨ s = "reported_with_fails" ∨ s = "failed") :
    pollStep j env =
      StepRes.stop (Except.ok (env.answer.results, env.answer.elapsed_time_in_seconds)) := by
  rcases ht with ht | ht | ht <;> subst ht <;> simp [pollStep, he, hs]

/-- One continuing iteration of the polling loop. -/
theorem pollLoop_cont (api : Api) (j : String) (i n : Nat)
    (h : continuesPoll (api.ask_analysis_result i)) :
    pollLoop api j i (n + 1) =
      (ApiCall.askAnalysisResult j :: (pollLoop api j (i + 1) n).1,
       (pollLoop api j (i + 1) n).2) := by
  simp [pollLoop, pollStep_go j _ h]

/-- One stopping iteration of the polling loop. -/
theorem pollLoop_stop (api : Api) (j : String) (i n : Nat)
    (r : Except ClientErr (List String × Option Nat))
    (h : pollStep j (api.ask_analysis_result i) = StepRes.stop r) :
    pollLoop api j i (n + 1) = ([ApiCall.askAnalysisResult j], r) := by
  simp [pollLoop, h]

/-- A run of `m` continuing answers contributes `m` polling calls and
leaves the loop at iteration `i + m`. -/
theorem pollLoop_prefix (api : Api) (j : String) (m : Nat) :
    ∀ (i fuel : Nat), (∀ k, k < m → continuesPoll (api.ask_analysis_result (i + k))) →
    pollLoop api j i (m + fuel) =
      (List.replicate m (ApiCall.askAnalysisResult j) ++ (pollLoop api j (i + m) fuel).1,
       (pollLoop api j (i + m) fuel).2) := by
  induction m with
  | zero => intro i fuel _; simp
  | succ m ih =>
    intro i fuel h
    have h0 : continuesPoll (api.ask_analysis_result i) := by
      simpa using h 0 (by omega)
    rw [show m + 1 + fuel = (m + fuel) + 1 by omega, pollLoop_cont api j i (m + fuel) h0]
    have ih' := ih (i + 1) fuel (fun k hk => by
      have hx := h (k + 1) (by omega)
      simpa [Nat.add_assoc, Nat.add_comm 1 k] using hx)
    rw [ih', show i + 1 + m = i + (m + 1) by omega]
    simp [List.replicate_succ]

/-- The polling loop performs at most `fuel` iterations. -/
theorem pollLoop_length (api : Api) (j : String) :
    ∀ (fuel i : Nat), (pollLoop api j i fuel).1.length ≤ fuel := by
  intro fuel
  induction fuel with
  | zero => intro i; simp [pollLoop]
  | succ n ih =>
    intro i
    cases hp : pollStep j (api.ask_analysis_result i) with
    | stop r => simp [pollLoop, hp]
    | go =>
      have := ih (i + 1)
      simp only [pollLoop, hp]
      simpa using Nat.succ_le_succ this

/-- Every call made by the polling loop is `ask_analysis_result` on the
job id being polled. -/
theorem pollLoop_calls (api : Api) (j : String) :
    ∀ (fuel i : Nat) (c : ApiCall), c ∈ (pollLoop api j i fuel).1 →
      c = ApiCall.askAnalysisResult j := by
  intro fuel
  induction fuel with
  | zero => intro i c hc; simp [pollLoop] at hc
  | succ n ih =>
    intro i c hc
    cases hp : pollStep j (api.ask_analysis_result i) with
    | stop r => simp [pollLoop, hp] at hc; exact hc
    | go =>
      simp only [pollLoop, hp, List.mem_cons] at hc
      rcases hc with hc | hc
      · exact hc
      · exact ih (i + 1) c hc

/-- With at least one iteration of fuel the loop makes a polling call. -/
theorem pollLoop_mem (api : Api) (j : String) (i n : Nat) :
    ApiCall.askAnalysisResult j ∈ (pollLoop api j i (n + 1)).1 := by
  cases hp : pollStep j (api.ask_analysis_result i) <;> simp [pollLoop, hp]

/-- Availability step returning an existing job id. -/
theorem availabilityStep_some (api : Api) (s J : String)
    (he : api.ask_analysis_availability.errors = [])
    (hs : api.ask_analysis_availability.answer.status = some s)
    (h0 : s ≠ "") (h1 : s ≠ "not_available")
    (hj : api.ask_analysis_availability.answer.job_id = some J) (hJ : J ≠ "") :
    availabilityStep api = Except.ok (some J) := by
  simp [availabilityStep, he, hs, hj, h0, h1, hJ]

/-- Availability step with a non-empty errors list raises. -/
theorem availabilityStep_errors (api : Api) (e : String) (es : List String)
    (he : api.ask_analysis_availability.errors = e :: es) :
    availabilityStep api = Except.error (ClientErr.availabilityErrors (e :: es)) := by
  simp [availabilityStep, he]

/-- Successful submission step. -/
theorem submissionStep_ok (api : Api) (J : String)
    (he : api.send_analysis_request.errors = [])
    (hs : api.send_analysis_request.answer.status = some "accepted")
    (hj : api.send_analysis_request.answer.job_id = some J) (hJ : J ≠ "") :
    submissionStep api = Except.ok J := by
  simp [submissionStep, he, hs, hj, hJ]

/-- Submission step with a non-empty errors list raises. -/
theorem submissionStep_errors (api : Api) (e : String) (es : List String)
    (he : api.send_analysis_request.errors = e :: es) :
    submissionStep api = Except.error (ClientErr.sendErrors (e :: es)) := by
  simp [submissionStep, he]

/-- Submission step with a status other than accepted raises. -/
theorem submissionStep_not_accepted (api : Api) (s : String)
    (hs : api.send_analysis_request.answer.status = some s)
    (hne : s ≠ "accepted") :
    ∃ e, submissionStep api = Except.error e := by
  rcases he : api.send_analysis_request.errors with _ | ⟨a, as⟩
  · by_cases hs0 : s = ""
    · exact ⟨ClientErr.sendNoStatus, by simp [submissionStep, he, hs, hs0]⟩
    · exact ⟨ClientErr.sendUnexpectedStatus s, by simp [submissionStep, he, hs, hs0, hne]⟩
  · exact ⟨ClientErr.sendErrors (a :: as), by simp [submissionStep, he]⟩

/-- The calls of the polling part are the prior calls followed by the
loop calls, on every branch. -/
theorem flowPolling_calls (api : Api) (calls0 : List ApiCall) (J : String) :
    (flowPolling api calls0 J).calls = calls0 ++ (pollLoop api J 0 polling_max_tries).1 := by
  unfold flowPolling
  rcases hp : (pollLoop api J 0 polling_max_tries).2 with e | ⟨results, elapsed⟩
  · simp [hp]
  · cases results <;> simp [hp]

/-- Counting polling calls distributes over append. -/
theorem countPoll_append (a b : List ApiCall) :
    countPoll (a ++ b) = countPoll a + countPoll b := by
  simp [countPoll, List.countP_append]

/-- Counting polling calls in a singleton polling call. -/
theorem countPoll_single (j : String) :
    countPoll [ApiCall.askAnalysisResult j] = 1 := rfl

/-- Counting polling calls in a replicated polling call. -/
theorem countPoll_replicate (n : Nat) (j : String) :
    countPoll (List.replicate n (ApiCall.askAnalysisResult j)) = n := by
  induction n with
  | zero => rfl
  | succ m ih =>
    simp only [List.replicate_succ, countPoll, List.countP_cons] at ih ⊢
    simp [isPollCall, ih]

/-- Polling part when the answers continue up to iteration `i`, whose
envelope carries a non-empty errors list: the loop stops there with the
raised exception and empty results. -/
theorem flowPolling_error_at (api : Api) (calls0 : List ApiCall) (J : String)
    (i : Nat) (e : String) (es : List String)
    (hcont : ∀ k, k < i → continuesPoll (api.ask_analysis_result k))
    (hi : i < polling_max_tries)
    (hei : (api.ask_analysis_result i).errors = e :: es) :
    flowPolling api calls0 J =
      ⟨calls0 ++ (List.replicate i (ApiCall.askAnalysisResult J) ++
        [ApiCall.askAnalysisResult J]), [], none,
        some (ClientErr.resultErrors (e :: es))⟩ := by
  have hfe : polling_max_tries = i + (polling_max_tries - i - 1 + 1) := by omega
  have hstop : pollLoop api J (0 + i) (polling_max_tries - i - 1 + 1) =
      ([ApiCall.askAnalysisResult J],
        Except.error (ClientErr.resultErrors (e :: es))) := by
    simp only [Nat.zero_add]
    simp [pollLoop, pollStep_stop_errors J _ e es hei]
  have hpre := pollLoop_prefix api J i 0 (polling_max_tries - i - 1 + 1)
    (fun k hk => by simpa using hcont k hk)
  have hloop : pollLoop api J 0 polling_max_tries =
      (List.replicate i (ApiCall.askAnalysisResult J) ++
        [ApiCall.askAnalysisResult J],
        Except.error (ClientErr.resultErrors (e :: es))) := by
    rw [hfe, hpre, hstop]
  simp [flowPolling, hloop]

/-- Polling part when every one of the `polling_max_tries` answers
continues: the loop exhausts its cap and the timeout exception is
raised with empty results. -/
theorem flowPolling_timeout (api : Api) (calls0 : List ApiCall) (J : String)
    (hcont : ∀ k, k < polling_max_tries → continuesPoll (api.ask_analysis_result k)) :
    flowPolling api calls0 J =
      ⟨calls0 ++ List.replicate polling_max_tries (ApiCall.askAnalysisResult J),
        [], none, some (ClientErr.pollingTimeout J)⟩ := by
  have hpre := pollLoop_prefix api J polling_max_tries 0 0
    (fun k hk => by simpa using hcont k hk)
  have hz : pollLoop api J (0 + polling_max_tries) 0 = ([], Except.ok ([], none)) := rfl
  rw [hz] at hpre
  have hloop : pollLoop api J 0 polling_max_tries =
      (List.replicate polling_max_tries (ApiCall.askAnalysisResult J),
        Except.ok ([], none)) := by
    simpa using hpre
  simp [flowPolling, hloop]

/-- Polling part when the first answer is terminal with empty results:
the loop exits at once but the empty results trigger the very same
polling-timeout exception as a genuine timeout. -/
theorem flowPolling_terminal_first (api : Api) (calls0 : List ApiCall)
    (J : String) (t : String)
    (he0 : (api.ask_analysis_result 0).errors = [])
    (hs0 : (api.ask_analysis_result 0).answer.status = some t)
    (ht : t = "reported_without_fails" ∨ t = "reported_with_fails" ∨ t = "failed")
    (hres : (api.ask_analysis_result 0).answer.results = []) :
    flowPolling api calls0 J =
      ⟨calls0 ++ [ApiCall.askAnalysisResult J], [],
        (api.ask_analysis_result 0).answer.elapsed_time_in_seconds,
        some (ClientErr.pollingTimeout J)⟩ := by
  have hstep := pollStep_stop_terminal J (api.ask_analysis_result 0) t he0 hs0 ht
  have hloop : pollLoop api J 0 polling_max_tries =
      ([ApiCall.askAnalysisResult J],
        Except.ok ([], (api.ask_analysis_result 0).answer.elapsed_time_in_seconds)) := by
    rw [show polling_max_tries = 1199 + 1 from rfl]
    simp [pollLoop, hstep, hres]
  simp [flowPolling, hloop]

/-- Whenever a job id is acquired, either by submission after a skipped
or negative availability check or directly from the availability check,
the analysis flow ends in the polling part on that job id, with no
polling call among the calls made before the loop. -/
theorem analysisFlow_to_polling (api : Api) (args : Args) (mode : Mode)
    (md5 : String) (J : String)
    (hroute : ((args.skip_check_analysis_availability = true ∨
        availabilityStep api = Except.ok none) ∧
        submissionStep api = Except.ok J) ∨
      (args.skip_check_analysis_availability = false ∧
        availabilityStep api = Except.ok (some J))) :
    ∃ calls0, analysisFlow api args mode md5 = flowPolling api calls0 J ∧
      countPoll calls0 = 0 := by
  rcases hroute with ⟨havail, hsub⟩ | ⟨hskip, hav⟩
  · by_cases hskip : args.skip_check_analysis_availability = true
    · refine ⟨[sendCall args mode md5], ?_, ?_⟩
      · simp [analysisFlow, hskip, flowAfterAvail, hsub]
      · cases mode <;> simp [countPoll, sendCall, isPollCall]
    · have hav : availabilityStep api = Except.ok none := havail.resolve_left hskip
      refine ⟨[availCall md5 args, sendCall args mode md5], ?_, ?_⟩
      · simp only [Bool.not_eq_true] at hskip
        simp [analysisFlow, hskip, hav, flowAfterAvail, hsub]
      · cases mode <;> simp [countPoll, availCall, sendCall, isPollCall]
  · refine ⟨[availCall md5 args], ?_, ?_⟩
    · simp [analysisFlow, hskip, hav, flowAfterAvail]
    · simp [countPoll, availCall, isPollCall]

/-- C3: without the configuration flag, supplying neither analyzer
selection exits with code 2, supplying both exits with code 3; the
`earlyExit` result is produced by the validation alone, before the
logger is created and before `_pyintelowl_logic` can make any network
call. -/
theorem c3_flag_validation_exit_codes
    (md5hex : List Nat → String) (fs : String → Option (List Nat))
    (api : Api) (args : Args) (hgc : args.get_configuration = false) :
    (args.analyzers_list = [] → args.run_all_available_analyzers = false →
      intel_owl_client md5hex fs api args = ClientRun.earlyExit 2) ∧
    (args.analyzers_list ≠ [] → args.run_all_available_analyzers = true →
      intel_owl_client md5hex fs api args = ClientRun.earlyExit 3) := by
  constructor
  · intro h1 h2
    simp [intel_owl_client, hgc, h1, h2]
  · intro h1 h2
    simp [intel_owl_client, hgc, h1, h2]

/-- Witness for C3 at concrete arguments. -/
theorem c3_flag_validation_exit_codes_witness :
    intel_owl_client mdh0 fs0 api0 { command := none } = ClientRun.earlyExit 2 ∧
    intel_owl_client mdh0 fs0 api0
      { analyzers_list := ["a1"], run_all_available_analyzers := true } =
      ClientRun.earlyExit 3 := by
  constructor
  · exact (c3_flag_validation_exit_codes mdh0 fs0 api0 _ rfl).1 rfl rfl
  · exact (c3_flag_validation_exit_codes mdh0 fs0 api0 _ rfl).2 (by simp) rfl

/-- C8: in file mode the fingerprint is the digest of exactly the bytes
read from the filesystem; in observable mode it is the digest of the
UTF-8 encoding of the lower-cased value, and lower-casing is idempotent. -/
theorem c8_fingerprint_and_normalization
    (md5hex : List Nat → String) (fs : String → Option (List Nat)) (api : Api)
    (args : Args) (path : String) (bytes : List Nat) (v : List Nat) :
    (args.command = some (Cmd.file path) → fs path = some bytes →
      (pyintelowl_logic md5hex fs api args).md5 = some (md5hex bytes)) ∧
    (args.command = some (Cmd.observable v) →
      (pyintelowl_logic md5hex fs api args).md5 =
        some (md5hex (utf8Encode (lowerStr v)))) ∧
    lowerStr (lowerStr v) = lowerStr v := by
  refine ⟨?_, ?_, lowerStr_idem v⟩
  · intro hc hf
    simp [pyintelowl_logic, hc, hf, finalStep]
  · intro hc
    simp [pyintelowl_logic, hc, finalStep]

/-- Witness for C8 at concrete inputs. -/
theorem c8_fingerprint_and_normalization_witness :
    ((pyintelowl_logic mdh0 fs1 api0 argsFile0).md5 = some (mdh0 [77, 90, 0])) ∧
    ((pyintelowl_logic mdh0 fs0 api0 argsObs0).md5 =
      some (mdh0 (utf8Encode (lowerStr [72, 105])))) ∧
    lowerStr (lowerStr [72, 105]) = lowerStr [72, 105] := by
  refine ⟨?_, ?_, ?_⟩
  · exact (c8_fingerprint_and_normalization mdh0 fs1 api0 argsFile0
      "sample.bin" [77, 90, 0] []).1 rfl (by decide)
  · exact (c8_fingerprint_and_normalization mdh0 fs0 api0 argsObs0
      "" [] [72, 105]).2.1 rfl
  · exact (c8_fingerprint_and_normalization mdh0 fs0 api0 argsObs0
      "" [] [72, 105]).2.2

/-- C10: with colorized presentation requested the final step reads
`args.value`, which the file subcommand never defines, so every
file-mode run ends in an unhandled AttributeError (interpreter exit 1)
after the analysis part finished; in observable mode the colorized
rendering is reached instead. -/
theorem c10_show_colors_file_mode_crash
    (md5hex : List Nat → String) (fs : String → Option (List Nat)) (api : Api)
    (args : Args) (path : String) (v : List Nat) :
    (args.command = some (Cmd.file path) → args.show_colors = true →
      (pyintelowl_logic md5hex fs api args).outcome = Outcome.attributeError ∧
      exitCodeOf (pyintelowl_logic md5hex fs api args).outcome = 1) ∧
    (args.command = some (Cmd.observable v) → args.show_colors = true →
      (pyintelowl_logic md5hex fs api args).outcome =
        Outcome.colorized (lowerStr v) (pyintelowl_logic md5hex fs api args).results) := by
  constructor
  · intro hc hsc
    cases hf : fs path with
    | none => simp [pyintelowl_logic, hc, hf, finalStep, hsc, exitCodeOf]
    | some binary => simp [pyintelowl_logic, hc, hf, finalStep, hsc, exitCodeOf]
  · intro hc hsc
    simp [pyintelowl_logic, hc, finalStep, hsc]

/-- Witness for C10 at concrete inputs. -/
theorem c10_show_colors_file_mode_crash_witness :
    ((pyintelowl_logic mdh0 fs1 apiAccepted argsFileColors).outcome =
      Outcome.attributeError ∧
     exitCodeOf (pyintelowl_logic mdh0 fs1 apiAccepted argsFileColors).outcome = 1) ∧
    (pyintelowl_logic mdh0 fs0 api0 { argsObs0 with show_colors := true }).outcome =
      Outcome.colorized (lowerStr [72, 105])
        (pyintelowl_logic mdh0 fs0 api0 { argsObs0 with show_colors := true }).results := by
  constructor
  · exact (c10_show_colors_file_mode_crash mdh0 fs1 apiAccepted argsFileColors
      "sample.bin" []).1 rfl rfl
  · exact (c10_show_colors_file_mode_crash mdh0 fs0 api0
      { argsObs0 with show_colors := true } "" [72, 105]).2 rfl rfl

/-- C2 counterexample: a file-mode invocation on a missing file makes no
network call and logs the error, but the process does not exit with a
specific non-success code: the run falls through to the final print of
empty results and the process ends with exit status 0. -/
theorem c2_missing_file_no_specific_exit_counterexample :
    (pyintelowl_logic mdh0 fs0 api0 argsFile0).trace = [] ∧
    (pyintelowl_logic mdh0 fs0 api0 argsFile0).loggedError =
      some (ClientErr.fileNotExists "sample.bin") ∧
    (pyintelowl_logic mdh0 fs0 api0 argsFile0).outcome = Outcome.printedResults [] ∧
    exitCodeOf (pyintelowl_logic mdh0 fs0 api0 argsFile0).outcome = 0 ∧
    intel_owl_client mdh0 fs0 api0 argsFile0 =
      ClientRun.ran (pyintelowl_logic mdh0 fs0 api0 argsFile0) := by
  refine ⟨by decide, by decide, by decide, by decide, by decide⟩

/-- C2 (amended): in file mode with a missing file the error is raised
before any network call, caught and logged; the run then falls through
to the final presentation of empty results (exit status 0 in raw mode)
instead of exiting with a specific failing code. -/
theorem c2_missing_file_logged_no_network
    (md5hex : List Nat → String) (fs : String → Option (List Nat)) (api : Api)
    (args : Args) (path : String)
    (hc : args.command = some (Cmd.file path)) (hf : fs path = none) :
    (pyintelowl_logic md5hex fs api args).trace = [] ∧
    (pyintelowl_logic md5hex fs api args).loggedError =
      some (ClientErr.fileNotExists path) ∧
    (pyintelowl_logic md5hex fs api args).results = [] ∧
    (args.show_colors = false →
      (pyintelowl_logic md5hex fs api args).outcome = Outcome.printedResults [] ∧
      exitCodeOf (pyintelowl_logic md5hex fs api args).outcome = 0) := by
  refine ⟨?_, ?_, ?_, fun hsc => ⟨?_, ?_⟩⟩ <;>
    simp [pyintelowl_logic, hc, hf, finalStep, exitCodeOf, *]

/-- Witness for the amended C2 at concrete inputs. -/
theorem c2_missing_file_logged_no_network_witness :
    (pyintelowl_logic mdh0 fs0 apiAccepted argsFile0).trace = [] ∧
    (pyintelowl_logic mdh0 fs0 apiAccepted argsFile0).loggedError =
      some (ClientErr.fileNotExists "sample.bin") ∧
    (pyintelowl_logic mdh0 fs0 apiAccepted argsFile0).outcome =
      Outcome.printedResults [] := by
  have h := c2_missing_file_logged_no_network mdh0 fs0 apiAccepted argsFile0
    "sample.bin" rfl rfl
  exact ⟨h.1, h.2.1, (h.2.2.2 rfl).1⟩

/-- C4: with the availability check enabled, a non-`"not_available"`
status together with a truthy job id J makes the run skip both
submission calls entirely, and every polling call targets exactly J. -/
theorem c4_available_reuses_job
    (api : Api) (args : Args) (mode : Mode) (md5 : String) (s J : String)
    (hskip : args.skip_check_analysis_availability = false)
    (he : api.ask_analysis_availability.errors = [])
    (hs : api.ask_analysis_availability.answer.status = some s)
    (h0 : s ≠ "") (h1 : s ≠ "not_available")
    (hj : api.ask_analysis_availability.answer.job_id = some J) (hJ : J ≠ "") :
    (∀ c ∈ (analysisFlow api args mode md5).calls, isSendCall c = false) ∧
    (∀ j, ApiCall.askAnalysisResult j ∈ (analysisFlow api args mode md5).calls →
      j = J) ∧
    ApiCall.askAnalysisResult J ∈ (analysisFlow api args mode md5).calls := by
  have hav := availabilityStep_some api s J he hs h0 h1 hj hJ
  have hflow : analysisFlow api args mode md5 =
      flowPolling api [availCall md5 args] J := by
    simp [analysisFlow, hskip, hav, flowAfterAvail]
  have hcalls : (analysisFlow api args mode md5).calls =
      [availCall md5 args] ++ (pollLoop api J 0 polling_max_tries).1 := by
    rw [hflow, flowPolling_calls]
  refine ⟨?_, ?_, ?_⟩
  · intro c hc
    rw [hcalls] at hc
    rcases List.mem_append.1 hc with hc | hc
    · simp only [List.mem_singleton] at hc
      subst hc
      simp [availCall, isSendCall]
    · rw [pollLoop_calls api J _ _ c hc]
      rfl
  · intro j hj'
    rw [hcalls] at hj'
    rcases List.mem_append.1 hj' with h | h
    · simp [availCall] at h
    · have hx := pollLoop_calls api J _ _ _ h
      simpa using hx
  · rw [hcalls]
    refine List.mem_append.2 (Or.inr ?_)
    rw [show polling_max_tries = 1199 + 1 from rfl]
    exact pollLoop_mem api J 0 1199

/-- Witness for C4 at concrete inputs. -/
theorem c4_available_reuses_job_witness :
    (∀ c ∈ (analysisFlow apiAvail argsObs0 (Mode.obsM [104, 105]) "m2").calls,
      isSendCall c = false) ∧
    (∀ j, ApiCall.askAnalysisResult j ∈
        (analysisFlow apiAvail argsObs0 (Mode.obsM [104, 105]) "m2").calls →
      j = "J2") ∧
    ApiCall.askAnalysisResult "J2" ∈
      (analysisFlow apiAvail argsObs0 (Mode.obsM [104, 105]) "m2").calls :=
  c4_available_reuses_job apiAvail argsObs0 (Mode.obsM [104, 105]) "m2"
    "already_available" "J2" rfl rfl rfl (by decide) (by decide) rfl (by decide)

/-- C5: when a submission is made (availability skipped or answered
`"not_available"`) and the submission answer carries a status other than
`"accepted"`, the run raises the client exception before the polling
loop: no `ask_analysis_result` call is ever made and no results are
captured. -/
theorem c5_non_accepted_aborts_before_polling
    (api : Api) (args : Args) (mode : Mode) (md5 : String) (s : String)
    (hreach : args.skip_check_analysis_availability = true ∨
      availabilityStep api = Except.ok none)
    (hs : api.send_analysis_request.answer.status = some s)
    (hne : s ≠ "accepted") :
    (∃ e, (analysisFlow api args mode md5).err = some e) ∧
    (analysisFlow api args mode md5).results = [] ∧
    ∀ j, ApiCall.askAnalysisResult j ∉ (analysisFlow api args mode md5).calls := by
  obtain ⟨e, hsub⟩ := submissionStep_not_accepted api s hs hne
  by_cases hskip : args.skip_check_analysis_availability = true
  · have hflow : analysisFlow api args mode md5 =
        ⟨[] ++ [sendCall args mode md5], [], none, some e⟩ := by
      simp [analysisFlow, hskip, flowAfterAvail, hsub]
    rw [hflow]
    refine ⟨⟨e, rfl⟩, rfl, ?_⟩
    intro j hj
    cases mode <;> simp [sendCall] at hj
  · have hav : availabilityStep api = Except.ok none :=
      hreach.resolve_left hskip
    have hflow : analysisFlow api args mode md5 =
        ⟨[availCall md5 args] ++ [sendCall args mode md5], [], none, some e⟩ := by
      simp only [Bool.not_eq_true] at hskip
      simp [analysisFlow, hskip, hav, flowAfterAvail, hsub]
    rw [hflow]
    refine ⟨⟨e, rfl⟩, rfl, ?_⟩
    intro j hj
    cases mode <;> simp [availCall, sendCall] at hj

/-- Witness for C5 at concrete inputs. -/
theorem c5_non_accepted_aborts_before_polling_witness :
    (∃ e, (analysisFlow apiNotAccepted argsObs0 (Mode.obsM [104, 105]) "m3").err =
      some e) ∧
    (analysisFlow apiNotAccepted argsObs0 (Mode.obsM [104, 105]) "m3").results = [] ∧
    ∀ j, ApiCall.askAnalysisResult j ∉
      (analysisFlow apiNotAccepted argsObs0 (Mode.obsM [104, 105]) "m3").calls :=
  c5_non_accepted_aborts_before_polling apiNotAccepted argsObs0
    (Mode.obsM [104, 105]) "m3" "queued"
    (Or.inr rfl) rfl (by decide)

/-- C1 counterexample: a configuration-only run whose
`get_analyzer_configs` envelope carries a non-empty errors list is not
aborted as a hard failure: the errors are merely logged, the
configuration from the answer field is still printed as the normal
result, and the process exits 0. -/
theorem c1_config_errors_not_hard_failure_counterexample :
    apiGcErr.get_analyzer_configs.errors ≠ [] ∧
    (pyintelowl_logic mdh0 fs0 apiGcErr argsGc0).gcErrors = ["e0"] ∧
    (pyintelowl_logic mdh0 fs0 apiGcErr argsGc0).outcome =
      Outcome.configPrinted "cfg" ∧
    (pyintelowl_logic mdh0 fs0 apiGcErr argsGc0).loggedError = none ∧
    exitCodeOf (pyintelowl_logic mdh0 fs0 apiGcErr argsGc0).outcome = 0 := by
  refine ⟨by decide, by decide, by decide, by decide, by decide⟩

/-- C1 (amended): for `ask_analysis_availability`, the submission call
and `ask_analysis_result`, a non-empty errors list in the returned
envelope raises the client exception, aborting the run: no later API
call is performed and no results are produced.  For
`get_analyzer_configs` the errors are only logged: the configuration is
still printed as the normal result and the process exits 0. -/
theorem c1_errors_abort_per_call
    (md5hex : List Nat → String) (fs : String → Option (List Nat)) (api : Api)
    (args : Args) (mode : Mode) (md5 : String) (i : Nat) (J : String) :
    (args.command = none → args.get_configuration = true →
      api.get_analyzer_configs.errors ≠ [] →
      (pyintelowl_logic md5hex fs api args).gcErrors =
        api.get_analyzer_configs.errors ∧
      (pyintelowl_logic md5hex fs api args).outcome =
        Outcome.configPrinted api.get_analyzer_configs.answer ∧
      exitCodeOf (pyintelowl_logic md5hex fs api args).outcome = 0) ∧
    (args.skip_check_analysis_availability = false →
      api.ask_analysis_availability.errors ≠ [] →
      analysisFlow api args mode md5 =
        ⟨[availCall md5 args], [], none,
          some (ClientErr.availabilityErrors api.ask_analysis_availability.errors)⟩) ∧
    ((args.skip_check_analysis_availability = true ∨
        availabilityStep api = Except.ok none) →
      api.send_analysis_request.errors ≠ [] →
      (analysisFlow api args mode md5).err =
        some (ClientErr.sendErrors api.send_analysis_request.errors) ∧
      (analysisFlow api args mode md5).results = [] ∧
      ∀ j, ApiCall.askAnalysisResult j ∉ (analysisFlow api args mode md5).calls) ∧
    ((((args.skip_check_analysis_availability = true ∨
        availabilityStep api = Except.ok none) ∧
        submissionStep api = Except.ok J) ∨
      (args.skip_check_analysis_availability = false ∧
        availabilityStep api = Except.ok (some J))) →
      (∀ k, k < i → continuesPoll (api.ask_analysis_result k)) →
      i < polling_max_tries →
      (api.ask_analysis_result i).errors ≠ [] →
      (analysisFlow api args mode md5).err =
        some (ClientErr.resultErrors (api.ask_analysis_result i).errors) ∧
      (analysisFlow api args mode md5).results = [] ∧
      countPoll (analysisFlow api args mode md5).calls = i + 1) := by
  refine ⟨?_, ?_, ?_, ?_⟩
  · intro hc hgc _
    refine ⟨?_, ?_, ?_⟩ <;> simp [pyintelowl_logic, hc, hgc, exitCodeOf]
  · intro hskip hne
    rcases he : api.ask_analysis_availability.errors with _ | ⟨e, es⟩
    · exact absurd he hne
    · have hav := availabilityStep_errors api e es he
      simp [analysisFlow, hskip, hav]
  · intro havail hne
    rcases he : api.send_analysis_request.errors with _ | ⟨e, es⟩
    · exact absurd he hne
    · have hsub := submissionStep_errors api e es he
      by_cases hskip : args.skip_check_analysis_availability = true
      · have hflow : analysisFlow api args mode md5 =
            ⟨[sendCall args mode md5], [], none,
              some (ClientErr.sendErrors (e :: es))⟩ := by
          simp [analysisFlow, hskip, flowAfterAvail, hsub]
        rw [hflow]
        refine ⟨rfl, rfl, ?_⟩
        intro j hj
        cases mode <;> simp [sendCall] at hj
      · have hav := havail.resolve_left hskip
        have hflow : analysisFlow api args mode md5 =
            ⟨[availCall md5 args, sendCall args mode md5], [], none,
              some (ClientErr.sendErrors (e :: es))⟩ := by
          simp only [Bool.not_eq_true] at hskip
          simp [analysisFlow, hskip, hav, flowAfterAvail, hsub]
        rw [hflow]
        refine ⟨rfl, rfl, ?_⟩
        intro j hj
        cases mode <;> simp [availCall, sendCall] at hj
  · intro hroute hcont hi hne
    rcases he : (api.ask_analysis_result i).errors with _ | ⟨e, es⟩
    · exact absurd he hne
    · obtain ⟨calls0, hflow, hcp⟩ := analysisFlow_to_polling api args mode md5 J hroute
      have herr := flowPolling_error_at api calls0 J i e es hcont hi he
      have hflow2 := hflow.trans herr
      rw [hflow2]
      refine ⟨rfl, rfl, ?_⟩
      show countPoll (calls0 ++ (List.replicate i (ApiCall.askAnalysisResult J) ++
        [ApiCall.askAnalysisResult J])) = i + 1
      rw [countPoll_append, hcp, countPoll_append, countPoll_replicate,
        countPoll_single]
      omega

/-- Witness for the amended C1 at concrete inputs, one per API call. -/
theorem c1_errors_abort_per_call_witness :
    ((pyintelowl_logic mdh0 fs0 apiGcErr argsGc0).outcome =
      Outcome.configPrinted apiGcErr.get_analyzer_configs.answer) ∧
    (analysisFlow apiAvailErr argsObs0 (Mode.obsM [104, 105]) "m1" =
      ⟨[availCall "m1" argsObs0], [], none,
        some (ClientErr.availabilityErrors
          apiAvailErr.ask_analysis_availability.errors)⟩) ∧
    ((analysisFlow apiSendErr argsObs0 (Mode.obsM [104, 105]) "m1").err =
      some (ClientErr.sendErrors apiSendErr.send_analysis_request.errors)) ∧
    ((analysisFlow apiPollErr argsObsSkip (Mode.obsM [104, 105]) "m1").err =
      some (ClientErr.resultErrors (apiPollErr.ask_analysis_result 1).errors)) ∧
    countPoll (analysisFlow apiPollErr argsObsSkip
      (Mode.obsM [104, 105]) "m1").calls = 2 := by
  have h1 := (c1_errors_abort_per_call mdh0 fs0 apiGcErr argsGc0
    (Mode.obsM [104, 105]) "m1" 0 "J").1 rfl rfl (by decide)
  have h2 := (c1_errors_abort_per_call mdh0 fs0 apiAvailErr argsObs0
    (Mode.obsM [104, 105]) "m1" 0 "J").2.1 rfl (by decide)
  have h3 := (c1_errors_abort_per_call mdh0 fs0 apiSendErr argsObs0
    (Mode.obsM [104, 105]) "m1" 0 "J").2.2.1 (Or.inr rfl) (by decide)
  have hcont : ∀ k, k < 1 → continuesPoll (apiPollErr.ask_analysis_result k) := by
    intro k hk
    interval_cases k
    exact ⟨rfl, "running", rfl, by decide, by decide, by decide, by decide,
      by decide, by decide⟩
  have h4 := (c1_errors_abort_per_call mdh0 fs0 apiPollErr argsObsSkip
    (Mode.obsM [104, 105]) "m1" 1 "J1").2.2.2
    (Or.inl ⟨Or.inl rfl, rfl⟩) hcont (by decide) (by decide)
  exact ⟨h1.2.1, h2, h3.1, h4.1, h4.2.2⟩

/-- C6: the polling loop performs at most 1200 iterations at a fixed
1-second interval; on the answer sequence running, running, pending,
reported_without_fails with non-empty results in the fourth answer, it
exits on the fourth iteration with those results captured and no error. -/
theorem c6_polling_cap_and_fourth_iteration
    (api : Api) (J : String) (R : List String) (el : Option Nat)
    (h0 : api.ask_analysis_result 0 = statusEnv "running")
    (h1 : api.ask_analysis_result 1 = statusEnv "running")
    (h2 : api.ask_analysis_result 2 = statusEnv "pending")
    (h3 : api.ask_analysis_result 3 = reportedEnv R el)
    (hR : R ≠ []) :
    polling_interval = 1 ∧
    polling_max_tries = 1200 ∧
    (∀ (a : Api) (j : String) (i : Nat),
      (pollLoop a j i polling_max_tries).1.length ≤ 1200) ∧
    pollLoop api J 0 polling_max_tries =
      (List.replicate 4 (ApiCall.askAnalysisResult J), Except.ok (R, el)) ∧
    ∀ calls0, flowPolling api calls0 J =
      ⟨calls0 ++ List.replicate 4 (ApiCall.askAnalysisResult J), R, el, none⟩ := by
  have hr : continuesPoll (statusEnv "running") :=
    ⟨rfl, "running", rfl, by decide, by decide, by decide, by decide,
      by decide, by decide⟩
  have hp : continuesPoll (statusEnv "pending") :=
    ⟨rfl, "pending", rfl, by decide, by decide, by decide, by decide,
      by decide, by decide⟩
  have hcont3 : ∀ k, k < 3 → continuesPoll (api.ask_analysis_result (0 + k)) := by
    intro k hk
    interval_cases k
    · simpa [h0] using hr
    · simpa [h1] using hr
    · simpa [h2] using hp
  have hstep := pollStep_stop_terminal J (api.ask_analysis_result 3)
    "reported_without_fails" (by rw [h3]; rfl) (by rw [h3]; rfl) (Or.inl rfl)
  have hstep2 : pollStep J (api.ask_analysis_result 3) =
      StepRes.stop (Except.ok (R, el)) := by
    rw [hstep, h3]
    rfl
  have hterm : pollLoop api J (0 + 3) 1197 =
      ([ApiCall.askAnalysisResult J], Except.ok (R, el)) := by
    rw [show (0 + 3 : Nat) = 3 from rfl, show (1197 : Nat) = 1196 + 1 from rfl]
    exact pollLoop_stop api J 3 1196 _ hstep2
  have hpre := pollLoop_prefix api J 3 0 1197 hcont3
  have hloop : pollLoop api J 0 polling_max_tries =
      (List.replicate 4 (ApiCall.askAnalysisResult J), Except.ok (R, el)) := by
    rw [show polling_max_tries = 3 + 1197 from rfl, hpre, hterm]
    rfl
  refine ⟨rfl, rfl, ?_, hloop, ?_⟩
  · intro a j i
    exact le_trans (pollLoop_length a j polling_max_tries i)
      (by norm_num [polling_max_tries])
  · intro calls0
    rcases hRc : R with _ | ⟨r, rs⟩
    · exact absurd hRc hR
    · rw [hRc] at hloop
      simp [flowPolling, hloop]

/-- Witness for C6 at a concrete answer sequence. -/
theorem c6_polling_cap_and_fourth_iteration_witness :
    polling_max_tries = 1200 ∧
    pollLoop apiSeq "J4" 0 polling_max_tries =
      (List.replicate 4 (ApiCall.askAnalysisResult "J4"),
        Except.ok (["verdict"], some 7)) ∧
    flowPolling apiSeq [] "J4" =
      ⟨List.replicate 4 (ApiCall.askAnalysisResult "J4"),
        ["verdict"], some 7, none⟩ := by
  have h := c6_polling_cap_and_fourth_iteration apiSeq "J4" ["verdict"] (some 7)
    rfl rfl rfl rfl (by decide)
  refine ⟨h.2.1, h.2.2.2.1, ?_⟩
  have hf := h.2.2.2.2 []
  simpa using hf

/-- C7: when no polling answer across all 1200 iterations is terminal
(every answer keeps the loop going), the run ends in the polling-timeout
error with empty results, then falls through to the same final print of
the empty results (raw mode) and the process exits 0 rather than with a
distinct failing code. -/
theorem c7_timeout_empty_results_falls_through
    (md5hex : List Nat → String) (fs : String → Option (List Nat)) (api : Api)
    (args : Args) (v : List Nat) (J : String)
    (hc : args.command = some (Cmd.observable v))
    (hskip : args.skip_check_analysis_availability = true)
    (he : api.send_analysis_request.errors = [])
    (hs : api.send_analysis_request.answer.status = some "accepted")
    (hj : api.send_analysis_request.answer.job_id = some J) (hJ : J ≠ "")
    (hpoll : ∀ k, k < polling_max_tries → continuesPoll (api.ask_analysis_result k))
    (hsc : args.show_colors = false) :
    (pyintelowl_logic md5hex fs api args).loggedError =
      some (ClientErr.pollingTimeout J) ∧
    (pyintelowl_logic md5hex fs api args).results = [] ∧
    (pyintelowl_logic md5hex fs api args).outcome = Outcome.printedResults [] ∧
    exitCodeOf (pyintelowl_logic md5hex fs api args).outcome = 0 := by
  have hsub := submissionStep_ok api J he hs hj hJ
  obtain ⟨calls0, hflow, hcp⟩ := analysisFlow_to_polling api args
    (Mode.obsM (lowerStr v)) (md5hex (utf8Encode (lowerStr v))) J
    (Or.inl ⟨Or.inl hskip, hsub⟩)
  have htime := flowPolling_timeout api calls0 J hpoll
  have hflow2 := hflow.trans htime
  refine ⟨?_, ?_, ?_, ?_⟩ <;>
    simp [pyintelowl_logic, hc, hflow2, finalStep, hsc, exitCodeOf]

/-- Witness for C7 at concrete inputs. -/
theorem c7_timeout_empty_results_falls_through_witness :
    (pyintelowl_logic mdh0 fs0 apiAccepted argsObsSkip).loggedError =
      some (ClientErr.pollingTimeout "J3") ∧
    (pyintelowl_logic mdh0 fs0 apiAccepted argsObsSkip).results = [] ∧
    (pyintelowl_logic mdh0 fs0 apiAccepted argsObsSkip).outcome =
      Outcome.printedResults [] := by
  have hpoll : ∀ k, k < polling_max_tries →
      continuesPoll (apiAccepted.ask_analysis_result k) := by
    intro k _
    exact ⟨rfl, "running", rfl, by decide, by decide, by decide, by decide,
      by decide, by decide⟩
  have h := c7_timeout_empty_results_falls_through mdh0 fs0 apiAccepted
    argsObsSkip [72, 105] "J3" rfl rfl rfl rfl rfl (by decide) hpoll rfl
  exact ⟨h.1, h.2.1, h.2.2.1⟩

/-- C9: a terminal polling answer whose results field is empty makes the
run raise exactly the polling-timeout exception, although only one
polling iteration happened, so a completed-but-empty job is
indistinguishable from a genuine timeout. -/
theorem c9_terminal_empty_equals_timeout
    (md5hex : List Nat → String) (fs : String → Option (List Nat)) (api : Api)
    (args : Args) (v : List Nat) (J t : String)
    (hc : args.command = some (Cmd.observable v))
    (hskip : args.skip_check_analysis_availability = true)
    (he : api.send_analysis_request.errors = [])
    (hs : api.send_analysis_request.answer.status = some "accepted")
    (hj : api.send_analysis_request.answer.job_id = some J) (hJ : J ≠ "")
    (he0 : (api.ask_analysis_result 0).errors = [])
    (hs0 : (api.ask_analysis_result 0).answer.status = some t)
    (ht : t = "reported_without_fails" ∨ t = "reported_with_fails" ∨ t = "failed")
    (hres : (api.ask_analysis_result 0).answer.results = []) :
    (pyintelowl_logic md5hex fs api args).loggedError =
      some (ClientErr.pollingTimeout J) ∧
    (pyintelowl_logic md5hex fs api args).results = [] ∧
    countPoll (pyintelowl_logic md5hex fs api args).trace = 1 := by
  have hsub := submissionStep_ok api J he hs hj hJ
  obtain ⟨calls0, hflow, hcp⟩ := analysisFlow_to_polling api args
    (Mode.obsM (lowerStr v)) (md5hex (utf8Encode (lowerStr v))) J
    (Or.inl ⟨Or.inl hskip, hsub⟩)
  have hterm := flowPolling_terminal_first api calls0 J t he0 hs0 ht hres
  have hflow2 := hflow.trans hterm
  refine ⟨?_, ?_, ?_⟩
  · simp [pyintelowl_logic, hc, hflow2, finalStep]
  · simp [pyintelowl_logic, hc, hflow2, finalStep]
  · have htr : (pyintelowl_logic md5hex fs api args).trace =
        calls0 ++ [ApiCall.askAnalysisResult J] := by
      simp [pyintelowl_logic, hc, hflow2, finalStep]
    rw [htr, countPoll_append, hcp, countPoll_single]

/-- Witness for C9 at concrete inputs. -/
theorem c9_terminal_empty_equals_timeout_witness :
    (pyintelowl_logic mdh0 fs0 apiTermEmpty argsObsSkip).loggedError =
      some (ClientErr.pollingTimeout "J5") ∧
    (pyintelowl_logic mdh0 fs0 apiTermEmpty argsObsSkip).results = [] ∧
    countPoll (pyintelowl_logic mdh0 fs0 apiTermEmpty argsObsSkip).trace = 1 :=
  c9_terminal_empty_equals_timeout mdh0 fs0 apiTermEmpty argsObsSkip
    [72, 105] "J5" "failed" rfl rfl rfl rfl rfl (by decide) rfl rfl
    (Or.inr (Or.inr rfl)) rfl

end PyIntelOwl
